import Mathlib

/-!
Shallow embedding of the ESP32 camera MJPEG streaming server
(`src/app_httpd.cpp`), centred on the `stream_handler` function. The
external collaborators — the camera driver (`esp_camera_fb_get`,
`esp_camera_fb_return`), the JPEG encoder (`frame2jpg`) and the HTTP
transport (`httpd_resp_set_type`, `httpd_resp_send_chunk`) — are modelled
by an oracle (`IterInput`) that supplies the outcome of each call; the
handler's observable behaviour is a trace of `Event`s, the final values of
its buffer-pointer variables, and its `esp_err_t` result.
-/

/-- `esp_err_t`: `ESP_OK` or a nonzero error code. -/
inductive EspErr where
  | ok
  | err (code : Int)
deriving DecidableEq, Repr

/-- `ESP_FAIL` is the error code `-1`. -/
def ESP_FAIL : EspErr := EspErr.err (-1)

/-- Subset of `pixformat_t` relevant to `camera_fb_t`. -/
inductive PixFormat where
  | rgb565
  | yuv422
  | grayscale
  | jpeg
  | rgb888
  | raw
deriving DecidableEq, Repr

/-- `camera_fb_t`: pixel format, byte contents (`buf`, with `len` being
`buf.length`), and the capture timestamp `timestamp.tv_sec` /
`timestamp.tv_usec` (nonnegative, as delivered by the driver). -/
structure Frame where
  format : PixFormat
  buf : List Nat
  sec : Nat
  usec : Nat
deriving DecidableEq, Repr

/-- Decimal digit list of `n` (embedding of printf `%u` / `%d` for a
nonnegative argument); fuel-based structural recursion so it evaluates in
the kernel. The fuel `n + 1` always suffices. -/
def toDecAux : Nat → Nat → List Char
  | 0, _ => []
  | fuel + 1, n =>
      if n < 10 then [Nat.digitChar n]
      else toDecAux fuel (n / 10) ++ [Nat.digitChar (n % 10)]

/-- printf `%u` / `%d` of a nonnegative value: decimal representation. -/
def toDec (n : Nat) : String := String.mk (toDecAux (n + 1) n)

/-- printf `%06d` of a nonnegative value: decimal, left-padded with `0`
to width 6. -/
def pad6 (n : Nat) : String :=
  String.mk (List.replicate (6 - (toDecAux (n + 1) n).length) '0') ++ toDec n

/-- `#define PART_BOUNDARY "123456789000000000000987654321"` -/
def PART_BOUNDARY : String := "123456789000000000000987654321"

/-- `_STREAM_CONTENT_TYPE = "multipart/x-mixed-replace;boundary=" PART_BOUNDARY` -/
def _STREAM_CONTENT_TYPE : String :=
  "multipart/x-mixed-replace;boundary=" ++ PART_BOUNDARY

/-- `_STREAM_BOUNDARY = "\r\n--" PART_BOUNDARY "\r\n"` -/
def _STREAM_BOUNDARY : String := "\r\n--" ++ PART_BOUNDARY ++ "\r\n"

/-- The full text `snprintf(part_buf, 128, _STREAM_PART, len, sec, usec)`
would produce with unbounded room, where `_STREAM_PART` is the format
string `"Content-Type: image/jpeg\r\nContent-Length: %u\r\nX-Timestamp:
%d.%06d\r\n\r\n"`. -/
def _STREAM_PART (len sec usec : Nat) : String :=
  "Content-Type: image/jpeg\r\nContent-Length: " ++ toDec len ++
  "\r\nX-Timestamp: " ++ toDec sec ++ "." ++ pad6 usec ++ "\r\n\r\n"

/-- One chunk handed to `httpd_resp_send_chunk`. -/
inductive Chunk where
  /-- the boundary delimiter chunk (`_STREAM_BOUNDARY`, `strlen` of it). -/
  | boundary (s : String)
  /-- the part header chunk: `written` is what `snprintf` actually stored
  in the 128-byte `part_buf` (at most 127 characters plus NUL), while
  `hlen` is `snprintf`'s return value — the full untruncated length —
  which is the byte count passed to the write. -/
  | partHeader (written : String) (hlen : Nat)
  /-- the payload chunk: `_jpg_buf` contents and `_jpg_buf_len`. -/
  | payload (buf : List Nat) (len : Nat)
deriving DecidableEq, Repr

/-- Observable calls made by `stream_handler`. -/
inductive Event where
  /-- `httpd_resp_set_type(req, t)` returning `r`. -/
  | respSetType (t : String) (r : EspErr)
  /-- `httpd_resp_set_hdr(req, hdr, v)` (result ignored by the code). -/
  | respSetHdr (hdr v : String)
  /-- `esp_camera_fb_get()`; `ok` records whether a frame was returned. -/
  | fbGet (ok : Bool)
  /-- `frame2jpg(fb, quality, &_jpg_buf, &_jpg_buf_len)` returning `ok`. -/
  | frame2jpgCall (quality : Nat) (ok : Bool)
  /-- `esp_camera_fb_return(fb)`. -/
  | fbReturn
  /-- `free(_jpg_buf)`. -/
  | bufFree
  /-- `httpd_resp_send_chunk(req, c, len-of-c)` returning `r`. -/
  | sendChunk (c : Chunk) (r : EspErr)
  /-- `vTaskDelay(10 / portTICK_PERIOD_MS)`. -/
  | taskDelay
deriving DecidableEq, Repr

/-- The local variables of `stream_handler` that persist across loop
iterations: `camera_fb_t *fb`, `uint8_t *_jpg_buf` (an owned pointer is
modelled as `some` of the pointee bytes, `NULL` as `none`),
`size_t _jpg_buf_len`, and `struct timeval _timestamp`. -/
structure LoopState where
  fb : Option Frame
  jpg_buf : Option (List Nat)
  jpg_buf_len : Nat
  tsSec : Nat
  tsUsec : Nat
deriving DecidableEq, Repr

/-- Variable state on entry to `stream_handler`
(`fb = NULL`, `_jpg_buf = NULL`, `_jpg_buf_len = 0`; the uninitialised
`_timestamp` is modelled as zero — it is never read before being set). -/
def initState : LoopState :=
  { fb := none, jpg_buf := none, jpg_buf_len := 0, tsSec := 0, tsUsec := 0 }

/-- Oracle for one loop iteration: the frame `esp_camera_fb_get` returns
(if any), the bytes `frame2jpg` would produce (if it is called;
`none` = conversion failure), and the results of the three
`httpd_resp_send_chunk` calls (if they are reached). -/
structure IterInput where
  frame : Option Frame
  encoded : Option (List Nat)
  boundaryRes : EspErr
  headerRes : EspErr
  payloadRes : EspErr
deriving DecidableEq, Repr

/-- Lines 68–88: acquire a frame; capture its timestamp; if it is not
JPEG, call `frame2jpg` at quality 80 and immediately return the frame to
the driver; otherwise alias `_jpg_buf`/`_jpg_buf_len` to the frame.
Returns the events, the updated variables, and `res`. -/
def acquirePhase (st : LoopState) (inp : IterInput) :
    List Event × LoopState × EspErr :=
  match inp.frame with
  | none => ([Event.fbGet false], { st with fb := none }, ESP_FAIL)
  | some f =>
      let st1 := { st with fb := some f, tsSec := f.sec, tsUsec := f.usec }
      if f.format = PixFormat.jpeg then
        ([Event.fbGet true],
         { st1 with jpg_buf := some f.buf, jpg_buf_len := f.buf.length },
         EspErr.ok)
      else
        match inp.encoded with
        | none =>
            ([Event.fbGet true, Event.frame2jpgCall 80 false, Event.fbReturn],
             { st1 with fb := none }, ESP_FAIL)
        | some bytes =>
            ([Event.fbGet true, Event.frame2jpgCall 80 true, Event.fbReturn],
             { st1 with fb := none, jpg_buf := some bytes,
                        jpg_buf_len := bytes.length },
             EspErr.ok)

/-- The boundary chunk of line 90. -/
def boundaryChunk : Chunk := Chunk.boundary _STREAM_BOUNDARY

/-- The part-header chunk of lines 93–94: `snprintf` into the 128-byte
`part_buf` stores at most the first 127 characters (plus a terminating
NUL) of the full formatted text but returns the full length `hlen`, and
`hlen` is the byte count handed to `httpd_resp_send_chunk`. All
characters involved are ASCII, so characters and bytes coincide. -/
def headerChunk (st : LoopState) : Chunk :=
  Chunk.partHeader
    (String.mk ((_STREAM_PART st.jpg_buf_len st.tsSec st.tsUsec).data.take 127))
    (_STREAM_PART st.jpg_buf_len st.tsSec st.tsUsec).length

/-- The payload chunk of line 97: `_jpg_buf` with `_jpg_buf_len` bytes. -/
def payloadChunk (st : LoopState) : Chunk :=
  Chunk.payload (st.jpg_buf.getD []) st.jpg_buf_len

/-- Lines 89–98: the three guarded `httpd_resp_send_chunk` calls —
boundary, then the `snprintf`-formatted part header, then the payload.
Returns the events and the final `res`. -/
def writePhase (st : LoopState) (inp : IterInput) (res : EspErr) :
    List Event × EspErr :=
  if res = EspErr.ok then
    let e1 := Event.sendChunk boundaryChunk inp.boundaryRes
    if inp.boundaryRes = EspErr.ok then
      let e2 := Event.sendChunk (headerChunk st) inp.headerRes
      if inp.headerRes = EspErr.ok then
        let e3 := Event.sendChunk (payloadChunk st) inp.payloadRes
        ([e1, e2, e3], inp.payloadRes)
      else ([e1, e2], inp.headerRes)
    else ([e1], inp.boundaryRes)
  else ([], res)

/-- Lines 99–106: end-of-iteration release block — if `fb` is still held,
return it to the driver and clear both pointers; otherwise if `_jpg_buf`
is held, `free` it and clear it. -/
def releasePhase (st : LoopState) : List Event × LoopState :=
  match st.fb with
  | some _ => ([Event.fbReturn], { st with fb := none, jpg_buf := none })
  | none =>
      match st.jpg_buf with
      | some _ => ([Event.bufFree], { st with jpg_buf := none })
      | none => ([], st)

/-- One full iteration of the `while(true)` loop body, lines 67–112:
acquire/encode, guarded writes, release block, then either `break` (on
`res != ESP_OK`) or `vTaskDelay` and continue. -/
def runIter (st : LoopState) (inp : IterInput) :
    List Event × LoopState × EspErr :=
  let a := acquirePhase st inp
  let w := writePhase a.2.1 inp a.2.2
  let r := releasePhase a.2.1
  if w.2 = EspErr.ok then
    (a.1 ++ w.1 ++ r.1 ++ [Event.taskDelay], r.2, w.2)
  else
    (a.1 ++ w.1 ++ r.1, r.2, w.2)

/-- The streaming loop run against a finite list of oracle responses:
returns the trace, the final variable state, and `some res` if the loop
exited (`res != ESP_OK`) within the supplied inputs, `none` if the
oracle list was exhausted with the loop still running. -/
def runLoop (st : LoopState) : List IterInput → List Event × LoopState × Option EspErr
  | [] => ([], st, none)
  | inp :: rest =>
      let i := runIter st inp
      if i.2.2 = EspErr.ok then
        let k := runLoop i.2.1 rest
        (i.1 ++ k.1, k.2.1, k.2.2)
      else
        (i.1, i.2.1, some i.2.2)

/-- `stream_handler` (lines 50–115): set the multipart content type
(aborting with that result if it fails), set the CORS and framerate
headers, then run the loop. `setTypeRes` is the transport's answer to
`httpd_resp_set_type`. -/
def stream_handler (setTypeRes : EspErr) (inputs : List IterInput) :
    List Event × LoopState × Option EspErr :=
  if setTypeRes = EspErr.ok then
    let k := runLoop initState inputs
    ([Event.respSetType _STREAM_CONTENT_TYPE EspErr.ok,
      Event.respSetHdr "Access-Control-Allow-Origin" "*",
      Event.respSetHdr "X-Framerate" "60"] ++ k.1, k.2.1, k.2.2)
  else
    ([Event.respSetType _STREAM_CONTENT_TYPE setTypeRes], initState,
     some setTypeRes)

/-! ### Event classifiers -/

def isAcquire : Event → Bool
  | Event.fbGet true => true
  | _ => false

def isFbReturn : Event → Bool
  | Event.fbReturn => true
  | _ => false

def isEncodeOk : Event → Bool
  | Event.frame2jpgCall _ true => true
  | _ => false

def isBufFree : Event → Bool
  | Event.bufFree => true
  | _ => false

def isSendChunk : Event → Bool
  | Event.sendChunk _ _ => true
  | _ => false

/-- The first failing transport write of an iteration's oracle answers,
if the writes were all reached. -/
def writeFailOf (inp : IterInput) : Option EspErr :=
  if inp.boundaryRes ≠ EspErr.ok then some inp.boundaryRes
  else if inp.headerRes ≠ EspErr.ok then some inp.headerRes
  else if inp.payloadRes ≠ EspErr.ok then some inp.payloadRes
  else none

/-- The status of the last status-bearing operation performed in one loop
iteration: `ESP_FAIL` when acquisition or conversion fails, otherwise the
first failing chunk write, otherwise `ESP_OK`. -/
def iterStatus (inp : IterInput) : EspErr :=
  match inp.frame with
  | none => ESP_FAIL
  | some f =>
      if f.format ≠ PixFormat.jpeg ∧ inp.encoded = none then ESP_FAIL
      else (writeFailOf inp).getD EspErr.ok

/-- Both pointer variables of the handler are `NULL` (the loop invariant
of claim C10). -/
def Clean (st : LoopState) : Prop := st.fb = none ∧ st.jpg_buf = none

/-! ### Sample collaborators for concrete runs -/

def jpegFrame : Frame := ⟨PixFormat.jpeg, [1, 2, 3], 5, 42⟩

def rawFrame : Frame := ⟨PixFormat.rgb565, [7, 7], 9, 10⟩

/-- A frame whose capture second is large enough that the formatted part
header exceeds the 128-byte `part_buf`. -/
def bigFrame : Frame := ⟨PixFormat.jpeg, [1, 2, 3], 10 ^ 70, 7⟩

def inpJpegOk : IterInput :=
  ⟨some jpegFrame, none, EspErr.ok, EspErr.ok, EspErr.ok⟩

def inpAcqFail : IterInput := ⟨none, none, EspErr.ok, EspErr.ok, EspErr.ok⟩

def inpEncodeOk : IterInput :=
  ⟨some rawFrame, some [4, 5, 6], EspErr.ok, EspErr.ok, EspErr.ok⟩

def inpEncodeFail : IterInput :=
  ⟨some rawFrame, none, EspErr.ok, EspErr.ok, EspErr.ok⟩

def inpPayloadFail : IterInput :=
  ⟨some jpegFrame, none, EspErr.ok, EspErr.ok, EspErr.err 7⟩

def inpBig : IterInput := ⟨some bigFrame, none, EspErr.ok, EspErr.ok, EspErr.ok⟩

/-! ### Basic sanity checks -/

example :
    _STREAM_PART 3 5 42 =
      "Content-Type: image/jpeg\r\nContent-Length: 3\r\nX-Timestamp: 5.000042\r\n\r\n" := by
  decide

example : (_STREAM_PART 3 5 42).length = 70 := by decide

/-! ### Formatting lemmas -/

lemma toDecAux_length_le :
    ∀ (fuel n k : Nat), n < fuel → n < 10 ^ k → 0 < k →
      (toDecAux fuel n).length ≤ k := by
  intro fuel
  induction fuel with
  | zero => intro n k hn _ _; omega
  | succ fuel ih =>
      intro n k hn hk hk0
      by_cases h10 : n < 10
      · simp [toDecAux, h10]; omega
      · have hdivfuel : n / 10 < fuel := by
          have : n / 10 < n := Nat.div_lt_self (by omega) (by omega)
          omega
        have hk2 : 2 ≤ k := by
          by_contra hc
          have hk1 : k = 1 := by omega
          subst hk1
          rw [pow_one] at hk
          omega
        have hdivpow : n / 10 < 10 ^ (k - 1) := by
          rw [Nat.div_lt_iff_lt_mul (by norm_num)]
          have : 10 ^ (k - 1) * 10 = 10 ^ k := by
            rw [← pow_succ]
            congr 1
            omega
          omega
        have := ih (n / 10) (k - 1) hdivfuel hdivpow (by omega)
        simp [toDecAux, h10]
        omega

lemma toDec_length_le (n k : Nat) (hk : n < 10 ^ k) (hk0 : 0 < k) :
    (toDec n).length ≤ k :=
  toDecAux_length_le (n + 1) n k (by omega) hk hk0

lemma pad6_length (n : Nat) (h : n < 1000000) : (pad6 n).length = 6 := by
  have h6 : (toDecAux (n + 1) n).length ≤ 6 :=
    toDecAux_length_le (n + 1) n 6 (by omega) (by norm_num; omega) (by norm_num)
  show (String.mk (List.replicate (6 - (toDecAux (n + 1) n).length) '0') ++
        toDec n).length = 6
  rw [String.length_append]
  show (List.replicate (6 - (toDecAux (n + 1) n).length) '0').length +
        (toDecAux (n + 1) n).length = 6
  rw [List.length_replicate]
  omega

/-! ### State invariant and scenario lemmas for one loop iteration -/

lemma clean_initState : Clean initState := by constructor <;> rfl

/-- Acquisition failure (lines 69–71): one failed `esp_camera_fb_get`,
no writes, no releases, `res = ESP_FAIL`, state unchanged. -/
lemma runIter_acq_fail (st : LoopState) (inp : IterInput)
    (hfb : st.fb = none) (hjb : st.jpg_buf = none) (hf : inp.frame = none) :
    runIter st inp = ([Event.fbGet false], st, ESP_FAIL) := by
  obtain ⟨fb, jb, l, s, u⟩ := st
  simp only at hfb hjb
  subst hfb hjb
  simp [runIter, acquirePhase, writePhase, releasePhase, hf, ESP_FAIL]

/-- Non-JPEG frame, conversion failure (lines 76–83): `frame2jpg` at
quality 80 fails, the frame is returned immediately, no writes, no
end-of-iteration release, `res = ESP_FAIL`. -/
lemma runIter_encode_fail (st : LoopState) (inp : IterInput) (f : Frame)
    (hfb : st.fb = none) (hjb : st.jpg_buf = none) (hf : inp.frame = some f)
    (hfmt : f.format ≠ PixFormat.jpeg) (henc : inp.encoded = none) :
    runIter st inp =
      ([Event.fbGet true, Event.frame2jpgCall 80 false, Event.fbReturn],
       { st with tsSec := f.sec, tsUsec := f.usec }, ESP_FAIL) := by
  obtain ⟨fb, jb, l, s, u⟩ := st
  simp only at hfb hjb
  subst hfb hjb
  simp [runIter, acquirePhase, writePhase, releasePhase, hf, hfmt, henc,
    ESP_FAIL]

/-- Non-JPEG frame, conversion success (lines 76–79 then 89–106): encode
at quality 80, return the source frame immediately, run the guarded
writes on the encoder's buffer, then `free` it in the release block. -/
lemma runIter_encode_ok (st : LoopState) (inp : IterInput) (f : Frame)
    (bytes : List Nat)
    (hfb : st.fb = none) (hjb : st.jpg_buf = none) (hf : inp.frame = some f)
    (hfmt : f.format ≠ PixFormat.jpeg) (henc : inp.encoded = some bytes) :
    runIter st inp =
      ([Event.fbGet true, Event.frame2jpgCall 80 true, Event.fbReturn] ++
        (writePhase ⟨none, some bytes, bytes.length, f.sec, f.usec⟩ inp
          EspErr.ok).1 ++
        [Event.bufFree] ++
        (if (writePhase ⟨none, some bytes, bytes.length, f.sec, f.usec⟩ inp
              EspErr.ok).2 = EspErr.ok then [Event.taskDelay] else []),
       ⟨none, none, bytes.length, f.sec, f.usec⟩,
       (writePhase ⟨none, some bytes, bytes.length, f.sec, f.usec⟩ inp
         EspErr.ok).2) := by
  obtain ⟨fb, jb, l, s, u⟩ := st
  simp only at hfb hjb
  subst hfb hjb
  by_cases hw : (writePhase ⟨none, some bytes, bytes.length, f.sec, f.usec⟩
      inp EspErr.ok).2 = EspErr.ok <;>
    simp [runIter, acquirePhase, releasePhase, hf, hfmt, henc, hw]

/-- JPEG frame (lines 84–87 then 89–106): no encoder call, the payload
aliases the frame's own buffer, and the frame is returned in the
end-of-iteration release block. -/
lemma runIter_jpeg (st : LoopState) (inp : IterInput) (f : Frame)
    (hfb : st.fb = none) (hjb : st.jpg_buf = none) (hf : inp.frame = some f)
    (hfmt : f.format = PixFormat.jpeg) :
    runIter st inp =
      ([Event.fbGet true] ++
        (writePhase ⟨some f, some f.buf, f.buf.length, f.sec, f.usec⟩ inp
          EspErr.ok).1 ++
        [Event.fbReturn] ++
        (if (writePhase ⟨some f, some f.buf, f.buf.length, f.sec, f.usec⟩ inp
              EspErr.ok).2 = EspErr.ok then [Event.taskDelay] else []),
       ⟨none, none, f.buf.length, f.sec, f.usec⟩,
       (writePhase ⟨some f, some f.buf, f.buf.length, f.sec, f.usec⟩ inp
         EspErr.ok).2) := by
  obtain ⟨fb, jb, l, s, u⟩ := st
  simp only at hfb hjb
  subst hfb hjb
  by_cases hw : (writePhase ⟨some f, some f.buf, f.buf.length, f.sec, f.usec⟩
      inp EspErr.ok).2 = EspErr.ok <;>
    simp [runIter, acquirePhase, releasePhase, hf, hfmt, hw]

/-! ### writePhase case lemmas -/

lemma writePhase_fail (st : LoopState) (inp : IterInput) (r : EspErr)
    (h : r ≠ EspErr.ok) : writePhase st inp r = ([], r) := by
  simp [writePhase, h]

lemma writePhase_boundary_fail (st : LoopState) (inp : IterInput)
    (h : inp.boundaryRes ≠ EspErr.ok) :
    writePhase st inp EspErr.ok =
      ([Event.sendChunk boundaryChunk inp.boundaryRes], inp.boundaryRes) := by
  simp [writePhase, h]

lemma writePhase_header_fail (st : LoopState) (inp : IterInput)
    (hb : inp.boundaryRes = EspErr.ok) (hh : inp.headerRes ≠ EspErr.ok) :
    writePhase st inp EspErr.ok =
      ([Event.sendChunk boundaryChunk EspErr.ok,
        Event.sendChunk (headerChunk st) inp.headerRes], inp.headerRes) := by
  simp [writePhase, hb, hh]

lemma writePhase_payload (st : LoopState) (inp : IterInput)
    (hb : inp.boundaryRes = EspErr.ok) (hh : inp.headerRes = EspErr.ok) :
    writePhase st inp EspErr.ok =
      ([Event.sendChunk boundaryChunk EspErr.ok,
        Event.sendChunk (headerChunk st) EspErr.ok,
        Event.sendChunk (payloadChunk st) inp.payloadRes],
       inp.payloadRes) := by
  simp [writePhase, hb, hh]

lemma writePhase_countP (st : LoopState) (inp : IterInput) (r : EspErr)
    (p : Event → Bool) (hp : ∀ c rr, p (Event.sendChunk c rr) = false) :
    ((writePhase st inp r).1.countP p) = 0 := by
  unfold writePhase
  split_ifs <;> simp [List.countP_cons, hp]

lemma writePhase_countP_isAcquire (st : LoopState) (inp : IterInput)
    (r : EspErr) : ((writePhase st inp r).1.countP isAcquire) = 0 :=
  writePhase_countP st inp r isAcquire (fun _ _ => rfl)

lemma writePhase_countP_isFbReturn (st : LoopState) (inp : IterInput)
    (r : EspErr) : ((writePhase st inp r).1.countP isFbReturn) = 0 :=
  writePhase_countP st inp r isFbReturn (fun _ _ => rfl)

lemma writePhase_countP_isEncodeOk (st : LoopState) (inp : IterInput)
    (r : EspErr) : ((writePhase st inp r).1.countP isEncodeOk) = 0 :=
  writePhase_countP st inp r isEncodeOk (fun _ _ => rfl)

lemma writePhase_countP_isBufFree (st : LoopState) (inp : IterInput)
    (r : EspErr) : ((writePhase st inp r).1.countP isBufFree) = 0 :=
  writePhase_countP st inp r isBufFree (fun _ _ => rfl)

/-! ### Per-iteration balance and cleanliness -/

lemma runIter_balance (st : LoopState) (inp : IterInput)
    (hfb : st.fb = none) (hjb : st.jpg_buf = none) :
    (runIter st inp).1.countP isAcquire = (runIter st inp).1.countP isFbReturn
    ∧ (runIter st inp).1.countP isEncodeOk
        = (runIter st inp).1.countP isBufFree
    ∧ (runIter st inp).2.1.fb = none ∧ (runIter st inp).2.1.jpg_buf = none := by
  rcases hf : inp.frame with _ | f
  · rw [runIter_acq_fail st inp hfb hjb hf]
    simp [isAcquire, isFbReturn, isEncodeOk, isBufFree, hfb, hjb]
  · by_cases hfmt : f.format = PixFormat.jpeg
    · have h := runIter_jpeg st inp f hfb hjb hf hfmt
      by_cases hw : (writePhase ⟨some f, some f.buf, f.buf.length, f.sec,
          f.usec⟩ inp EspErr.ok).2 = EspErr.ok <;>
        rw [h] <;>
        simp [hw, List.countP_append, List.countP_cons,
          writePhase_countP_isAcquire, writePhase_countP_isFbReturn,
          writePhase_countP_isEncodeOk, writePhase_countP_isBufFree,
          isAcquire, isFbReturn, isEncodeOk, isBufFree]
    · rcases henc : inp.encoded with _ | bytes
      · rw [runIter_encode_fail st inp f hfb hjb hf hfmt henc]
        simp [isAcquire, isFbReturn, isEncodeOk, isBufFree, hfb, hjb]
      · have h := runIter_encode_ok st inp f bytes hfb hjb hf hfmt henc
        by_cases hw : (writePhase ⟨none, some bytes, bytes.length, f.sec,
            f.usec⟩ inp EspErr.ok).2 = EspErr.ok <;>
          rw [h] <;>
          simp [hw, List.countP_append, List.countP_cons,
            writePhase_countP_isAcquire, writePhase_countP_isFbReturn,
            writePhase_countP_isEncodeOk, writePhase_countP_isBufFree,
            isAcquire, isFbReturn, isEncodeOk, isBufFree]

/-! ### runLoop lemmas -/

lemma runLoop_fail_cons (st : LoopState) (inp : IterInput)
    (rest : List IterInput) (h : (runIter st inp).2.2 ≠ EspErr.ok) :
    runLoop st (inp :: rest) =
      ((runIter st inp).1, (runIter st inp).2.1, some (runIter st inp).2.2) := by
  simp [runLoop, h]

lemma runLoop_ok_cons (st : LoopState) (inp : IterInput)
    (rest : List IterInput) (h : (runIter st inp).2.2 = EspErr.ok) :
    runLoop st (inp :: rest) =
      ((runIter st inp).1 ++ (runLoop (runIter st inp).2.1 rest).1,
       (runLoop (runIter st inp).2.1 rest).2.1,
       (runLoop (runIter st inp).2.1 rest).2.2) := by
  simp [runLoop, h]

lemma runLoop_clean (l : List IterInput) :
    ∀ (st : LoopState), st.fb = none → st.jpg_buf = none →
      (runLoop st l).2.1.fb = none ∧ (runLoop st l).2.1.jpg_buf = none := by
  induction l with
  | nil => intro st hfb hjb; exact ⟨hfb, hjb⟩
  | cons inp rest ih =>
      intro st hfb hjb
      have hb := runIter_balance st inp hfb hjb
      by_cases hr : (runIter st inp).2.2 = EspErr.ok
      · rw [runLoop_ok_cons st inp rest hr]
        exact ih _ hb.2.2.1 hb.2.2.2
      · rw [runLoop_fail_cons st inp rest hr]
        exact ⟨hb.2.2.1, hb.2.2.2⟩

lemma runLoop_balance (l : List IterInput) :
    ∀ (st : LoopState), st.fb = none → st.jpg_buf = none →
      (runLoop st l).1.countP isAcquire = (runLoop st l).1.countP isFbReturn
      ∧ (runLoop st l).1.countP isEncodeOk
          = (runLoop st l).1.countP isBufFree := by
  induction l with
  | nil => intro st hfb hjb; simp [runLoop]
  | cons inp rest ih =>
      intro st hfb hjb
      have hb := runIter_balance st inp hfb hjb
      by_cases hr : (runIter st inp).2.2 = EspErr.ok
      · rw [runLoop_ok_cons st inp rest hr]
        have := ih _ hb.2.2.1 hb.2.2.2
        simp only [List.countP_append]
        omega
      · rw [runLoop_fail_cons st inp rest hr]
        exact ⟨hb.1, hb.2.1⟩

lemma runLoop_result_ne_ok (l : List IterInput) :
    ∀ (st : LoopState) (r : EspErr),
      (runLoop st l).2.2 = some r → r ≠ EspErr.ok := by
  induction l with
  | nil => intro st r h; simp [runLoop] at h
  | cons inp rest ih =>
      intro st r h
      by_cases hr : (runIter st inp).2.2 = EspErr.ok
      · rw [runLoop_ok_cons st inp rest hr] at h
        exact ih _ r h
      · rw [runLoop_fail_cons st inp rest hr] at h
        simp at h
        rw [← h]
        exact hr

lemma runLoop_append (pre rest : List IterInput) :
    ∀ (st : LoopState), (runLoop st pre).2.2 = none →
      runLoop st (pre ++ rest) =
        ((runLoop st pre).1 ++ (runLoop (runLoop st pre).2.1 rest).1,
         (runLoop (runLoop st pre).2.1 rest).2.1,
         (runLoop (runLoop st pre).2.1 rest).2.2) := by
  induction pre with
  | nil => intro st h; simp [runLoop]
  | cons inp pre ih =>
      intro st h
      by_cases hr : (runIter st inp).2.2 = EspErr.ok
      · rw [runLoop_ok_cons st inp pre hr] at h
        simp only [List.cons_append]
        rw [runLoop_ok_cons st inp (pre ++ rest) hr, ih _ h,
          runLoop_ok_cons st inp pre hr]
        simp [List.append_assoc]
      · rw [runLoop_fail_cons st inp pre hr] at h
        simp at h

/-! ### Iteration result characterisation -/

lemma writePhase_res (st : LoopState) (inp : IterInput) :
    (writePhase st inp EspErr.ok).2 = (writeFailOf inp).getD EspErr.ok := by
  unfold writePhase writeFailOf
  split_ifs <;> simp_all

lemma runIter_res (st : LoopState) (inp : IterInput)
    (hfb : st.fb = none) (hjb : st.jpg_buf = none) :
    (runIter st inp).2.2 = iterStatus inp := by
  rcases hf : inp.frame with _ | f
  · rw [runIter_acq_fail st inp hfb hjb hf]
    simp [iterStatus, hf]
  · by_cases hfmt : f.format = PixFormat.jpeg
    · rw [runIter_jpeg st inp f hfb hjb hf hfmt]
      simp [iterStatus, hf, hfmt, writePhase_res]
    · rcases henc : inp.encoded with _ | bytes
      · rw [runIter_encode_fail st inp f hfb hjb hf hfmt henc]
        simp [iterStatus, hf, hfmt, henc]
      · rw [runIter_encode_ok st inp f bytes hfb hjb hf hfmt henc]
        simp [iterStatus, hf, hfmt, henc, writePhase_res]

lemma writePhase_events_send (st : LoopState) (inp : IterInput) (r : EspErr) :
    ∀ e ∈ (writePhase st inp r).1, isSendChunk e = true := by
  intro e he
  unfold writePhase at he
  split_ifs at he <;> simp at he <;>
    rcases he with rfl | rfl | rfl <;> rfl

lemma writePhase_filter_send (st : LoopState) (inp : IterInput) (r : EspErr) :
    ((writePhase st inp r).1.filter isSendChunk) = (writePhase st inp r).1 :=
  List.filter_eq_self.mpr (writePhase_events_send st inp r)

lemma writePhase_payload_mem (st : LoopState) (inp : IterInput)
    (buf : List Nat) (len : Nat) (rp : EspErr)
    (hp : Event.sendChunk (Chunk.payload buf len) rp
            ∈ (writePhase st inp EspErr.ok).1) :
    len = st.jpg_buf_len ∧ buf = st.jpg_buf.getD [] ∧ rp = inp.payloadRes
    ∧ inp.boundaryRes = EspErr.ok ∧ inp.headerRes = EspErr.ok
    ∧ Event.sendChunk (headerChunk st) EspErr.ok
        ∈ (writePhase st inp EspErr.ok).1 := by
  by_cases hb : inp.boundaryRes = EspErr.ok
  · by_cases hh : inp.headerRes = EspErr.ok
    · rw [writePhase_payload st inp hb hh] at hp ⊢
      simp [boundaryChunk, headerChunk, payloadChunk] at hp
      refine ⟨?_, ?_, ?_, hb, hh, by simp [headerChunk]⟩ <;> tauto
    · rw [writePhase_header_fail st inp hb hh] at hp
      simp [boundaryChunk, headerChunk] at hp
  · rw [writePhase_boundary_fail st inp hb] at hp
    simp [boundaryChunk] at hp

lemma releasePhase_len (st : LoopState) : (releasePhase st).1.length ≤ 1 := by
  rcases hfb : st.fb with _ | f
  · rcases hjb : st.jpg_buf with _ | b <;> simp [releasePhase, hfb, hjb]
  · simp [releasePhase, hfb]

/-! ### Trace membership lemmas -/

lemma sendChunk_mem_runIter (st : LoopState) (inp : IterInput)
    (hfb : st.fb = none) (hjb : st.jpg_buf = none) (c : Chunk) (r : EspErr)
    (h : Event.sendChunk c r ∈ (runIter st inp).1) :
    ∃ f, inp.frame = some f ∧
      ((f.format = PixFormat.jpeg ∧
          Event.sendChunk c r ∈
            (writePhase ⟨some f, some f.buf, f.buf.length, f.sec, f.usec⟩
              inp EspErr.ok).1)
       ∨ (f.format ≠ PixFormat.jpeg ∧ ∃ bytes, inp.encoded = some bytes ∧
          Event.sendChunk c r ∈
            (writePhase ⟨none, some bytes, bytes.length, f.sec, f.usec⟩
              inp EspErr.ok).1)) := by
  rcases hf : inp.frame with _ | f
  · rw [runIter_acq_fail st inp hfb hjb hf] at h
    simp at h
  · refine ⟨f, rfl, ?_⟩
    by_cases hfmt : f.format = PixFormat.jpeg
    · left
      refine ⟨hfmt, ?_⟩
      rw [runIter_jpeg st inp f hfb hjb hf hfmt] at h
      simp only [List.mem_append] at h
      rcases h with ((h | h) | h) | h
      · simp at h
      · exact h
      · simp at h
      · split_ifs at h <;> simp at h
    · right
      refine ⟨hfmt, ?_⟩
      rcases henc : inp.encoded with _ | bytes
      · rw [runIter_encode_fail st inp f hfb hjb hf hfmt henc] at h
        simp at h
      · refine ⟨bytes, rfl, ?_⟩
        rw [runIter_encode_ok st inp f bytes hfb hjb hf hfmt henc] at h
        simp only [List.mem_append] at h
        rcases h with ((h | h) | h) | h
        · simp at h
        · exact h
        · simp at h
        · split_ifs at h <;> simp at h

lemma writePhase_sub_runIter_jpeg (st : LoopState) (inp : IterInput)
    (f : Frame) (hfb : st.fb = none) (hjb : st.jpg_buf = none)
    (hf : inp.frame = some f) (hfmt : f.format = PixFormat.jpeg) :
    ∀ e ∈ (writePhase ⟨some f, some f.buf, f.buf.length, f.sec, f.usec⟩
            inp EspErr.ok).1, e ∈ (runIter st inp).1 := by
  intro e he
  rw [runIter_jpeg st inp f hfb hjb hf hfmt]
  simp [he]

lemma writePhase_sub_runIter_encode (st : LoopState) (inp : IterInput)
    (f : Frame) (bytes : List Nat)
    (hfb : st.fb = none) (hjb : st.jpg_buf = none)
    (hf : inp.frame = some f) (hfmt : f.format ≠ PixFormat.jpeg)
    (henc : inp.encoded = some bytes) :
    ∀ e ∈ (writePhase ⟨none, some bytes, bytes.length, f.sec, f.usec⟩
            inp EspErr.ok).1, e ∈ (runIter st inp).1 := by
  intro e he
  rw [runIter_encode_ok st inp f bytes hfb hjb hf hfmt henc]
  simp [he]

/-! ### Claim theorems -/

/-- C2: over any run of the stream handler, successful frame acquisitions
are matched one-to-one by frame-buffer returns to the camera driver, and
successful encoder allocations one-to-one by `free`s — so acquire calls
and release/free calls balance — and the end-of-iteration release block
performs at most one release. -/
theorem C2_release_exactly_once (setTypeRes : EspErr)
    (inputs : List IterInput) :
    ((stream_handler setTypeRes inputs).1.countP isAcquire
        = (stream_handler setTypeRes inputs).1.countP isFbReturn)
    ∧ ((stream_handler setTypeRes inputs).1.countP isEncodeOk
        = (stream_handler setTypeRes inputs).1.countP isBufFree)
    ∧ ((stream_handler setTypeRes inputs).1.countP isAcquire
          + (stream_handler setTypeRes inputs).1.countP isEncodeOk
        = (stream_handler setTypeRes inputs).1.countP isFbReturn
          + (stream_handler setTypeRes inputs).1.countP isBufFree)
    ∧ (∀ st : LoopState, ((releasePhase st).1.length ≤ 1)) := by
  by_cases hs : setTypeRes = EspErr.ok
  · have hb := runLoop_balance inputs initState rfl rfl
    have ha : (stream_handler setTypeRes inputs).1.countP isAcquire
        = (runLoop initState inputs).1.countP isAcquire := by
      simp [stream_handler, hs, List.countP_append, List.countP_cons,
        isAcquire]
    have hr : (stream_handler setTypeRes inputs).1.countP isFbReturn
        = (runLoop initState inputs).1.countP isFbReturn := by
      simp [stream_handler, hs, List.countP_append, List.countP_cons,
        isFbReturn]
    have he : (stream_handler setTypeRes inputs).1.countP isEncodeOk
        = (runLoop initState inputs).1.countP isEncodeOk := by
      simp [stream_handler, hs, List.countP_append, List.countP_cons,
        isEncodeOk]
    have hf : (stream_handler setTypeRes inputs).1.countP isBufFree
        = (runLoop initState inputs).1.countP isBufFree := by
      simp [stream_handler, hs, List.countP_append, List.countP_cons,
        isBufFree]
    rw [ha, hr, he, hf]
    exact ⟨hb.1, hb.2, by omega, releasePhase_len⟩
  · have ht : (stream_handler setTypeRes inputs).1
        = [Event.respSetType _STREAM_CONTENT_TYPE setTypeRes] := by
      simp [stream_handler, hs]
    rw [ht]
    refine ⟨?_, ?_, ?_, releasePhase_len⟩ <;>
      simp [List.countP_cons, isAcquire, isFbReturn, isEncodeOk, isBufFree]

/-- C10: starting from null pointer variables, every loop iteration ends
(hence every next iteration starts) with both `fb` and `_jpg_buf` null;
the state after any number of loop iterations is null/null; and the state
at the point `stream_handler` returns is null/null. -/
theorem C10_pointers_null_at_boundaries (setTypeRes : EspErr)
    (inputs pre : List IterInput) (st : LoopState) (inp : IterInput)
    (hfb : st.fb = none) (hjb : st.jpg_buf = none) :
    ((runIter st inp).2.1.fb = none ∧ (runIter st inp).2.1.jpg_buf = none)
    ∧ ((runLoop initState pre).2.1.fb = none
        ∧ (runLoop initState pre).2.1.jpg_buf = none)
    ∧ ((stream_handler setTypeRes inputs).2.1.fb = none
        ∧ (stream_handler setTypeRes inputs).2.1.jpg_buf = none) := by
  refine ⟨⟨(runIter_balance st inp hfb hjb).2.2.1,
           (runIter_balance st inp hfb hjb).2.2.2⟩,
          runLoop_clean pre initState rfl rfl, ?_⟩
  by_cases hs : setTypeRes = EspErr.ok
  · have h := runLoop_clean inputs initState rfl rfl
    simp [stream_handler, hs]
    exact h
  · simp [stream_handler, hs, initState]

/-- C10 witness: a concrete successful JPEG iteration and a concrete run
both end with null pointer variables. -/
theorem C10_witness :
    ((runIter initState inpJpegOk).2.1.fb = none
      ∧ (runIter initState inpJpegOk).2.1.jpg_buf = none)
    ∧ ((runLoop initState [inpJpegOk]).2.1.fb = none
        ∧ (runLoop initState [inpJpegOk]).2.1.jpg_buf = none)
    ∧ ((stream_handler EspErr.ok [inpJpegOk, inpAcqFail]).2.1.fb = none
        ∧ (stream_handler EspErr.ok [inpJpegOk, inpAcqFail]).2.1.jpg_buf
            = none) :=
  C10_pointers_null_at_boundaries EspErr.ok [inpJpegOk, inpAcqFail]
    [inpJpegOk] initState inpJpegOk rfl rfl

/-- C7: the handler never returns `ESP_OK`: whenever it returns, the
result is the failure status of the last status-bearing operation — on
the early-abort path the `httpd_resp_set_type` failure, otherwise the
terminating iteration's `iterStatus` (acquisition / conversion failure or
the first failing chunk write). -/
theorem C7_never_returns_success (setTypeRes : EspErr)
    (inputs : List IterInput) :
    (∀ r, (stream_handler setTypeRes inputs).2.2 = some r → r ≠ EspErr.ok)
    ∧ (setTypeRes ≠ EspErr.ok →
        (stream_handler setTypeRes inputs).2.2 = some setTypeRes)
    ∧ (∀ pre inp rest, inputs = pre ++ inp :: rest →
        setTypeRes = EspErr.ok →
        (runLoop initState pre).2.2 = none →
        iterStatus inp ≠ EspErr.ok →
        (stream_handler setTypeRes inputs).2.2 = some (iterStatus inp)) := by
  refine ⟨?_, ?_, ?_⟩
  · intro r hr
    by_cases hs : setTypeRes = EspErr.ok
    · simp [stream_handler, hs] at hr
      exact runLoop_result_ne_ok inputs initState r hr
    · simp [stream_handler, hs] at hr
      rw [← hr]
      exact hs
  · intro hs
    simp [stream_handler, hs]
  · intro pre inp rest hsplit hs hpre hst
    subst hsplit hs
    have hclean := runLoop_clean pre initState rfl rfl
    have hres : (runIter (runLoop initState pre).2.1 inp).2.2 = iterStatus inp :=
      runIter_res _ inp hclean.1 hclean.2
    have hfail : (runIter (runLoop initState pre).2.1 inp).2.2 ≠ EspErr.ok := by
      rw [hres]; exact hst
    have hres2 : (stream_handler EspErr.ok (pre ++ inp :: rest)).2.2
        = (runLoop initState (pre ++ inp :: rest)).2.2 := by
      simp [stream_handler]
    rw [hres2, runLoop_append pre (inp :: rest) initState hpre,
      runLoop_fail_cons _ inp rest hfail]
    simp [hres]

/-- C7 witness: with the content type accepted and the camera failing on
the first iteration, the handler returns that iteration's status
(`ESP_FAIL`), which is not `ESP_OK`. -/
theorem C7_witness :
    (stream_handler EspErr.ok [inpAcqFail]).2.2 = some (iterStatus inpAcqFail) :=
  (C7_never_returns_success EspErr.ok [inpAcqFail]).2.2 [] inpAcqFail []
    rfl rfl rfl (by decide)

/-- C1: in any loop iteration that reaches the payload write, the length
formatted into the part header's `Content-Length` is exactly the length
passed to the payload chunk write (both are `_jpg_buf_len`), and the
header's `X-Timestamp` field is the frame's capture seconds, a dot, and
the microseconds zero-padded to six digits. -/
theorem C1_header_matches_payload (st : LoopState) (inp : IterInput)
    (f : Frame) (buf : List Nat) (len : Nat) (rp : EspErr)
    (hfb : st.fb = none) (hjb : st.jpg_buf = none)
    (hf : inp.frame = some f)
    (hp : Event.sendChunk (Chunk.payload buf len) rp ∈ (runIter st inp).1) :
    Event.sendChunk (Chunk.partHeader
        (String.mk ((_STREAM_PART len f.sec f.usec).data.take 127))
        (_STREAM_PART len f.sec f.usec).length) EspErr.ok ∈ (runIter st inp).1
    ∧ _STREAM_PART len f.sec f.usec =
        "Content-Type: image/jpeg\r\nContent-Length: " ++ toDec len ++
        "\r\nX-Timestamp: " ++ toDec f.sec ++ "." ++ pad6 f.usec ++ "\r\n\r\n"
    ∧ (f.usec < 1000000 → (pad6 f.usec).length = 6) := by
  obtain ⟨f', hf', hcase⟩ := sendChunk_mem_runIter st inp hfb hjb _ _ hp
  rw [hf] at hf'
  injection hf' with hf'
  subst hf'
  refine ⟨?_, rfl, fun hu => pad6_length f.usec hu⟩
  rcases hcase with ⟨hfmt, hmem⟩ | ⟨hfmt, bytes, henc, hmem⟩
  · obtain ⟨hlen, hbuf, hrp, hb, hh, hhd⟩ := writePhase_payload_mem _ inp _ _ _ hmem
    apply writePhase_sub_runIter_jpeg st inp f hfb hjb hf hfmt
    have : len = f.buf.length := by simpa using hlen
    subst this
    simpa [headerChunk] using hhd
  · obtain ⟨hlen, hbuf, hrp, hb, hh, hhd⟩ := writePhase_payload_mem _ inp _ _ _ hmem
    apply writePhase_sub_runIter_encode st inp f bytes hfb hjb hf hfmt henc
    have : len = bytes.length := by simpa using hlen
    subst this
    simpa [headerChunk] using hhd

/-- C1 witness: a successful JPEG iteration whose payload chunk carries
3 bytes is matched by a header formatted for length 3 with timestamp
5.000042 of the frame. -/
theorem C1_witness :
    Event.sendChunk (Chunk.partHeader
        (String.mk ((_STREAM_PART 3 jpegFrame.sec jpegFrame.usec).data.take 127))
        (_STREAM_PART 3 jpegFrame.sec jpegFrame.usec).length) EspErr.ok
      ∈ (runIter initState inpJpegOk).1
    ∧ _STREAM_PART 3 jpegFrame.sec jpegFrame.usec =
        "Content-Type: image/jpeg\r\nContent-Length: " ++ toDec 3 ++
        "\r\nX-Timestamp: " ++ toDec jpegFrame.sec ++ "." ++
        pad6 jpegFrame.usec ++ "\r\n\r\n"
    ∧ (jpegFrame.usec < 1000000 → (pad6 jpegFrame.usec).length = 6) :=
  C1_header_matches_payload initState inpJpegOk jpegFrame [1, 2, 3] 3
    EspErr.ok rfl rfl rfl (by decide)

/-- C3: for a non-JPEG frame the handler invokes the encoder at quality
80 and returns the source frame to the driver immediately after the
encode call, whatever its outcome; on encode failure no chunk at all is
written in that iteration and the loop terminates with `ESP_FAIL`. -/
theorem C3_nonjpeg_encoder_path (st : LoopState) (inp : IterInput)
    (f : Frame) (rest : List IterInput)
    (hfb : st.fb = none) (hjb : st.jpg_buf = none)
    (hf : inp.frame = some f) (hfmt : f.format ≠ PixFormat.jpeg) :
    ((runIter st inp).1.take 3
      = [Event.fbGet true, Event.frame2jpgCall 80 inp.encoded.isSome,
         Event.fbReturn])
    ∧ (inp.encoded = none →
        (∀ e ∈ (runIter st inp).1, isSendChunk e = false)
        ∧ (runIter st inp).2.2 = ESP_FAIL
        ∧ (runLoop st (inp :: rest)).2.2 = some ESP_FAIL) := by
  rcases henc : inp.encoded with _ | bytes
  · have hit := runIter_encode_fail st inp f hfb hjb hf hfmt henc
    have hres : (runIter st inp).2.2 = ESP_FAIL := by rw [hit]
    refine ⟨by rw [hit]; simp, fun _ => ⟨?_, hres, ?_⟩⟩
    · intro e he
      rw [hit] at he
      simp at he
      rcases he with rfl | rfl | rfl <;> rfl
    · rw [runLoop_fail_cons st inp rest (by rw [hres]; simp [ESP_FAIL]), hres]
  · rw [runIter_encode_ok st inp f bytes hfb hjb hf hfmt henc]
    refine ⟨by simp, fun henc2 => by simp [henc] at henc2⟩

/-- C3 witness: an RGB565 frame with a failing encoder yields the
three-event prefix, no chunk writes, and loop termination with
`ESP_FAIL`. -/
theorem C3_witness :
    ((runIter initState inpEncodeFail).1.take 3
      = [Event.fbGet true, Event.frame2jpgCall 80 inpEncodeFail.encoded.isSome,
         Event.fbReturn])
    ∧ (inpEncodeFail.encoded = none →
        (∀ e ∈ (runIter initState inpEncodeFail).1, isSendChunk e = false)
        ∧ (runIter initState inpEncodeFail).2.2 = ESP_FAIL
        ∧ (runLoop initState [inpEncodeFail]).2.2 = some ESP_FAIL) :=
  C3_nonjpeg_encoder_path initState inpEncodeFail rawFrame [] rfl rfl rfl
    (by decide)

/-- C4: for a frame already in JPEG format the encoder is never invoked,
any payload chunk written carries exactly the frame's own bytes and
length, and the frame's release is the single `esp_camera_fb_return` in
the end-of-iteration release block, after all chunk writes. -/
theorem C4_jpeg_passthrough (st : LoopState) (inp : IterInput) (f : Frame)
    (hfb : st.fb = none) (hjb : st.jpg_buf = none)
    (hf : inp.frame = some f) (hfmt : f.format = PixFormat.jpeg) :
    (∀ q ok, Event.frame2jpgCall q ok ∉ (runIter st inp).1)
    ∧ (∀ buf len rp,
        Event.sendChunk (Chunk.payload buf len) rp ∈ (runIter st inp).1 →
        buf = f.buf ∧ len = f.buf.length)
    ∧ (∃ ws ds, (runIter st inp).1
          = Event.fbGet true :: (ws ++ Event.fbReturn :: ds)
        ∧ (∀ e ∈ ws, isSendChunk e = true)
        ∧ (∀ e ∈ ds, e = Event.taskDelay)) := by
  have hit := runIter_jpeg st inp f hfb hjb hf hfmt
  refine ⟨?_, ?_, ?_⟩
  · intro q ok h
    rw [hit] at h
    simp only [List.mem_append] at h
    rcases h with ((h | h) | h) | h
    · simp at h
    · have := writePhase_events_send _ inp EspErr.ok _ h
      simp [isSendChunk] at this
    · simp at h
    · split_ifs at h <;> simp at h
  · intro buf len rp h
    obtain ⟨f', hf', hcase⟩ := sendChunk_mem_runIter st inp hfb hjb _ _ h
    rw [hf] at hf'
    injection hf' with hf'
    subst hf'
    rcases hcase with ⟨_, hmem⟩ | ⟨hne, _⟩
    · obtain ⟨hlen, hbuf, _, _, _, _⟩ := writePhase_payload_mem _ inp _ _ _ hmem
      exact ⟨by simpa using hbuf, by simpa using hlen⟩
    · exact absurd hfmt hne
  · refine ⟨(writePhase ⟨some f, some f.buf, f.buf.length, f.sec, f.usec⟩
        inp EspErr.ok).1,
      (if (writePhase ⟨some f, some f.buf, f.buf.length, f.sec, f.usec⟩
          inp EspErr.ok).2 = EspErr.ok then [Event.taskDelay] else []),
      ?_, writePhase_events_send _ inp EspErr.ok, ?_⟩
    · rw [hit]
      simp
    · intro e he
      split_ifs at he <;> simp at he
      exact he

/-- C4 witness: a concrete all-successful JPEG iteration. -/
theorem C4_witness :
    (∀ q ok, Event.frame2jpgCall q ok ∉ (runIter initState inpJpegOk).1)
    ∧ (∀ buf len rp,
        Event.sendChunk (Chunk.payload buf len) rp
            ∈ (runIter initState inpJpegOk).1 →
        buf = jpegFrame.buf ∧ len = jpegFrame.buf.length)
    ∧ (∃ ws ds, (runIter initState inpJpegOk).1
          = Event.fbGet true :: (ws ++ Event.fbReturn :: ds)
        ∧ (∀ e ∈ ws, isSendChunk e = true)
        ∧ (∀ e ∈ ds, e = Event.taskDelay)) :=
  C4_jpeg_passthrough initState inpJpegOk jpegFrame rfl rfl rfl (by decide)

lemma writePhase_header_mem (st : LoopState) (inp : IterInput)
    (hb : inp.boundaryRes = EspErr.ok) :
    Event.sendChunk (headerChunk st) inp.headerRes
      ∈ (writePhase st inp EspErr.ok).1 := by
  by_cases hh : inp.headerRes = EspErr.ok
  · rw [writePhase_payload st inp hb hh, hh]
    simp
  · rw [writePhase_header_fail st inp hb hh]
    simp

lemma writeFailOf_ne_ok (inp : IterInput) (E : EspErr)
    (h : writeFailOf inp = some E) : E ≠ EspErr.ok := by
  unfold writeFailOf at h
  split_ifs at h <;> simp at h <;> subst h <;> assumption

lemma runIter_filter_send (st : LoopState) (inp : IterInput) (f : Frame)
    (hfb : st.fb = none) (hjb : st.jpg_buf = none)
    (hf : inp.frame = some f)
    (hheld : f.format = PixFormat.jpeg ∨ inp.encoded.isSome) :
    ∃ wst : LoopState,
      ((runIter st inp).1.filter isSendChunk)
        = (writePhase wst inp EspErr.ok).1 := by
  by_cases hfmt : f.format = PixFormat.jpeg
  · refine ⟨⟨some f, some f.buf, f.buf.length, f.sec, f.usec⟩, ?_⟩
    rw [runIter_jpeg st inp f hfb hjb hf hfmt]
    simp only [List.filter_append]
    rw [writePhase_filter_send]
    split_ifs <;> simp [isSendChunk]
  · rcases henc : inp.encoded with _ | bytes
    · rcases hheld with h | h
      · exact absurd h hfmt
      · rw [henc] at h
        simp at h
    · refine ⟨⟨none, some bytes, bytes.length, f.sec, f.usec⟩, ?_⟩
      rw [runIter_encode_ok st inp f bytes hfb hjb hf hfmt henc]
      simp only [List.filter_append]
      rw [writePhase_filter_send]
      split_ifs <;> simp [isSendChunk]

/-- C5: per iteration, the chunk writes form an ordered, conditional
prefix chain: nothing is written if acquisition or needed conversion
failed; otherwise the boundary is written first, the part header only if
the boundary write succeeded, and the payload only if the header write
succeeded — never a header without its boundary nor a payload without
its header. -/
theorem C5_write_order (st : LoopState) (inp : IterInput)
    (hfb : st.fb = none) (hjb : st.jpg_buf = none) :
    (inp.frame = none → ((runIter st inp).1.filter isSendChunk) = [])
    ∧ (∀ f, inp.frame = some f → f.format ≠ PixFormat.jpeg →
        inp.encoded = none → ((runIter st inp).1.filter isSendChunk) = [])
    ∧ (∀ f, inp.frame = some f →
        (f.format = PixFormat.jpeg ∨ inp.encoded.isSome) →
        ((inp.boundaryRes ≠ EspErr.ok →
            ((runIter st inp).1.filter isSendChunk)
              = [Event.sendChunk boundaryChunk inp.boundaryRes])
        ∧ (inp.boundaryRes = EspErr.ok → inp.headerRes ≠ EspErr.ok →
            ∃ w n, ((runIter st inp).1.filter isSendChunk)
              = [Event.sendChunk boundaryChunk EspErr.ok,
                 Event.sendChunk (Chunk.partHeader w n) inp.headerRes])
        ∧ (inp.boundaryRes = EspErr.ok → inp.headerRes = EspErr.ok →
            ∃ w n b l, ((runIter st inp).1.filter isSendChunk)
              = [Event.sendChunk boundaryChunk EspErr.ok,
                 Event.sendChunk (Chunk.partHeader w n) EspErr.ok,
                 Event.sendChunk (Chunk.payload b l) inp.payloadRes]))) := by
  refine ⟨?_, ?_, ?_⟩
  · intro hfr
    rw [runIter_acq_fail st inp hfb hjb hfr]
    simp [isSendChunk]
  · intro f hfr hfmt henc
    rw [runIter_encode_fail st inp f hfb hjb hfr hfmt henc]
    simp [isSendChunk]
  · intro f hfr hheld
    obtain ⟨wst, key⟩ := runIter_filter_send st inp f hfb hjb hfr hheld
    rw [key]
    refine ⟨?_, ?_, ?_⟩
    · intro hbb
      rw [writePhase_boundary_fail wst inp hbb]
    · intro hbb hh
      exact ⟨_, _, by rw [writePhase_header_fail wst inp hbb hh]; rfl⟩
    · intro hbb hh
      refine ⟨String.mk ((_STREAM_PART wst.jpg_buf_len wst.tsSec
          wst.tsUsec).data.take 127),
        (_STREAM_PART wst.jpg_buf_len wst.tsSec wst.tsUsec).length,
        wst.jpg_buf.getD [], wst.jpg_buf_len, ?_⟩
      rw [writePhase_payload wst inp hbb hh]
      rfl

/-- C5 witness: a JPEG frame whose payload write fails still produces the
full ordered boundary–header–payload chain, the payload carrying the
failing result. -/
theorem C5_witness :
    ∃ w n b l, ((runIter initState inpPayloadFail).1.filter isSendChunk)
      = [Event.sendChunk boundaryChunk EspErr.ok,
         Event.sendChunk (Chunk.partHeader w n) EspErr.ok,
         Event.sendChunk (Chunk.payload b l) inpPayloadFail.payloadRes] :=
  ((C5_write_order initState inpPayloadFail rfl rfl).2.2 jpegFrame rfl
    (by decide)).2.2 rfl rfl

/-- C6: when a chunk write of an iteration holding a buffer fails, the
buffer is still released (the source frame returned to the driver, an
encoder buffer freed), the loop terminates with exactly that write's
failure status, the trace of the failing run is the untouched trace of
the earlier iterations followed by this iteration's, and nothing is held
at exit. -/
theorem C6_write_failure_still_releases (pre : List IterInput)
    (inp : IterInput) (rest : List IterInput) (f : Frame) (E : EspErr)
    (hpre : (runLoop initState pre).2.2 = none)
    (hf : inp.frame = some f)
    (hheld : f.format = PixFormat.jpeg ∨ inp.encoded.isSome)
    (hfail : writeFailOf inp = some E) :
    (Event.fbReturn ∈ (runIter (runLoop initState pre).2.1 inp).1)
    ∧ (f.format ≠ PixFormat.jpeg →
        Event.bufFree ∈ (runIter (runLoop initState pre).2.1 inp).1)
    ∧ (runLoop initState (pre ++ inp :: rest)).2.2 = some E
    ∧ (runLoop initState (pre ++ inp :: rest)).1
        = (runLoop initState pre).1
          ++ (runIter (runLoop initState pre).2.1 inp).1
    ∧ (runLoop initState (pre ++ inp :: rest)).2.1.fb = none
    ∧ (runLoop initState (pre ++ inp :: rest)).2.1.jpg_buf = none := by
  have hclean := runLoop_clean pre initState rfl rfl
  have hEne : E ≠ EspErr.ok := writeFailOf_ne_ok inp E hfail
  have hstat : iterStatus inp = E := by
    unfold iterStatus
    rw [hf]
    have hcond : ¬(f.format ≠ PixFormat.jpeg ∧ inp.encoded = none) := by
      rcases hheld with h | h
      · simp [h]
      · intro hc
        rw [hc.2] at h
        simp at h
    simp only [if_neg hcond]
    rw [hfail]
    rfl
  have hres : (runIter (runLoop initState pre).2.1 inp).2.2 = E := by
    rw [runIter_res _ inp hclean.1 hclean.2, hstat]
  have hresne : (runIter (runLoop initState pre).2.1 inp).2.2 ≠ EspErr.ok := by
    rw [hres]; exact hEne
  have hbal := runIter_balance _ inp hclean.1 hclean.2
  refine ⟨?_, ?_, ?_, ?_, ?_, ?_⟩
  · by_cases hfmt : f.format = PixFormat.jpeg
    · rw [runIter_jpeg _ inp f hclean.1 hclean.2 hf hfmt]
      simp
    · rcases henc : inp.encoded with _ | bytes
      · rcases hheld with h | h
        · exact absurd h hfmt
        · rw [henc] at h; simp at h
      · rw [runIter_encode_ok _ inp f bytes hclean.1 hclean.2 hf hfmt henc]
        simp
  · intro hfmt
    rcases henc : inp.encoded with _ | bytes
    · rcases hheld with h | h
      · exact absurd h hfmt
      · rw [henc] at h; simp at h
    · rw [runIter_encode_ok _ inp f bytes hclean.1 hclean.2 hf hfmt henc]
      simp
  · rw [runLoop_append pre (inp :: rest) initState hpre]
    rw [runLoop_fail_cons _ inp rest hresne]
    simp [hres]
  · rw [runLoop_append pre (inp :: rest) initState hpre]
    rw [runLoop_fail_cons _ inp rest hresne]
  · rw [runLoop_append pre (inp :: rest) initState hpre,
      runLoop_fail_cons _ inp rest hresne]
    exact hbal.2.2.1
  · rw [runLoop_append pre (inp :: rest) initState hpre,
      runLoop_fail_cons _ inp rest hresne]
    exact hbal.2.2.2

/-- C6 witness: one successful JPEG iteration, then an iteration whose
payload write fails with code 7 — the frame is still returned, the run
ends with `err 7`, and the first part's trace is untouched. -/
theorem C6_witness :
    (Event.fbReturn
        ∈ (runIter (runLoop initState [inpJpegOk]).2.1 inpPayloadFail).1)
    ∧ (jpegFrame.format ≠ PixFormat.jpeg →
        Event.bufFree
          ∈ (runIter (runLoop initState [inpJpegOk]).2.1 inpPayloadFail).1)
    ∧ (runLoop initState ([inpJpegOk] ++ inpPayloadFail :: [])).2.2
        = some (EspErr.err 7)
    ∧ (runLoop initState ([inpJpegOk] ++ inpPayloadFail :: [])).1
        = (runLoop initState [inpJpegOk]).1
          ++ (runIter (runLoop initState [inpJpegOk]).2.1 inpPayloadFail).1
    ∧ (runLoop initState ([inpJpegOk] ++ inpPayloadFail :: [])).2.1.fb = none
    ∧ (runLoop initState
        ([inpJpegOk] ++ inpPayloadFail :: [])).2.1.jpg_buf = none :=
  C6_write_failure_still_releases [inpJpegOk] inpPayloadFail [] jpegFrame
    (EspErr.err 7) (by decide) rfl (by decide) (by decide)

/-- C8 counterexample: the content type the handler sets is
`multipart/x-mixed-replace;boundary=<token>` with no space after the
semicolon, so it is not "exactly"
`multipart/x-mixed-replace; boundary=<token>` as the claim's literal
reads. -/
theorem C8_counterexample :
    Event.respSetType ("multipart/x-mixed-replace; boundary="
        ++ PART_BOUNDARY) EspErr.ok ∉ (stream_handler EspErr.ok []).1
    ∧ Event.respSetType _STREAM_CONTENT_TYPE EspErr.ok
        ∈ (stream_handler EspErr.ok []).1
    ∧ _STREAM_CONTENT_TYPE
        ≠ "multipart/x-mixed-replace; boundary=" ++ PART_BOUNDARY := by
  decide

/-- C8 (amended): the preamble sets the content type to exactly
`multipart/x-mixed-replace;boundary=<token>` (no space after the
semicolon) and the headers `Access-Control-Allow-Origin: *` and
`X-Framerate: 60`; if the content-type set fails the handler returns
that failure immediately with no chunk writes. -/
theorem C8_preamble (setTypeRes : EspErr) (inputs : List IterInput) :
    (setTypeRes = EspErr.ok →
      (stream_handler setTypeRes inputs).1.take 3
        = [Event.respSetType ("multipart/x-mixed-replace;boundary="
              ++ PART_BOUNDARY) EspErr.ok,
           Event.respSetHdr "Access-Control-Allow-Origin" "*",
           Event.respSetHdr "X-Framerate" "60"])
    ∧ (setTypeRes ≠ EspErr.ok →
        (stream_handler setTypeRes inputs)
          = ([Event.respSetType _STREAM_CONTENT_TYPE setTypeRes], initState,
             some setTypeRes)
        ∧ ∀ c r, Event.sendChunk c r ∉ (stream_handler setTypeRes inputs).1) := by
  constructor
  · intro hs
    subst hs
    simp [stream_handler, _STREAM_CONTENT_TYPE]
  · intro hs
    constructor
    · simp [stream_handler, hs]
    · intro c r h
      simp [stream_handler, hs] at h

/-- C8 witness: with the content type accepted, the first three trace
events are the preamble; with it refused (code 3), the handler aborts at
once with that failure. -/
theorem C8_witness :
    ((stream_handler EspErr.ok []).1.take 3
      = [Event.respSetType ("multipart/x-mixed-replace;boundary="
            ++ PART_BOUNDARY) EspErr.ok,
         Event.respSetHdr "Access-Control-Allow-Origin" "*",
         Event.respSetHdr "X-Framerate" "60"])
    ∧ ((stream_handler (EspErr.err 3) [])
        = ([Event.respSetType _STREAM_CONTENT_TYPE (EspErr.err 3)], initState,
           some (EspErr.err 3))
      ∧ ∀ c r, Event.sendChunk c r ∉ (stream_handler (EspErr.err 3) []).1) :=
  ⟨(C8_preamble EspErr.ok []).1 rfl,
   (C8_preamble (EspErr.err 3) []).2 (by decide)⟩

/-- C9: the header write is always passed `snprintf`'s full reported
length — no clamping against the 128-byte `part_buf` — even when that
length exceeds the buffer's capacity, in which case the formatter only
ever stored the first 127 characters. -/
theorem C9_header_length_unclamped (st : LoopState) (inp : IterInput)
    (f : Frame)
    (hfb : st.fb = none) (hjb : st.jpg_buf = none)
    (hf : inp.frame = some f)
    (hheld : f.format = PixFormat.jpeg ∨ inp.encoded.isSome)
    (hb : inp.boundaryRes = EspErr.ok) :
    ∃ plen,
      plen = (if f.format = PixFormat.jpeg then f.buf.length
              else (inp.encoded.getD []).length)
      ∧ Event.sendChunk (Chunk.partHeader
            (String.mk ((_STREAM_PART plen f.sec f.usec).data.take 127))
            (_STREAM_PART plen f.sec f.usec).length) inp.headerRes
          ∈ (runIter st inp).1
      ∧ (127 < (_STREAM_PART plen f.sec f.usec).length →
          (String.mk ((_STREAM_PART plen f.sec f.usec).data.take 127)).length
              = 127
          ∧ (String.mk
                ((_STREAM_PART plen f.sec f.usec).data.take 127)).length
              < (_STREAM_PART plen f.sec f.usec).length) := by
  have htrunc : ∀ plen, 127 < (_STREAM_PART plen f.sec f.usec).length →
      (String.mk ((_STREAM_PART plen f.sec f.usec).data.take 127)).length
          = 127
      ∧ (String.mk ((_STREAM_PART plen f.sec f.usec).data.take 127)).length
          < (_STREAM_PART plen f.sec f.usec).length := by
    intro plen hgt
    have hdata : (_STREAM_PART plen f.sec f.usec).data.length
        = (_STREAM_PART plen f.sec f.usec).length := rfl
    have : (String.mk
        ((_STREAM_PART plen f.sec f.usec).data.take 127)).length
        = min 127 (_STREAM_PART plen f.sec f.usec).data.length := by
      show ((_STREAM_PART plen f.sec f.usec).data.take 127).length = _
      exact List.length_take 127 _
    rw [this, hdata]
    omega
  by_cases hfmt : f.format = PixFormat.jpeg
  · refine ⟨f.buf.length, by rw [if_pos hfmt], ?_, htrunc _⟩
    apply writePhase_sub_runIter_jpeg st inp f hfb hjb hf hfmt
    exact writePhase_header_mem _ inp hb
  · rcases henc : inp.encoded with _ | bytes
    · rcases hheld with h | h
      · exact absurd h hfmt
      · rw [henc] at h; simp at h
    · refine ⟨bytes.length, by simp [hfmt, henc], ?_, htrunc _⟩
      apply writePhase_sub_runIter_encode st inp f bytes hfb hjb hf hfmt henc
      exact writePhase_header_mem _ inp hb

set_option maxRecDepth 8192 in
/-- C9 witness: a frame captured at second `10 ^ 70` makes the formatted
header 140 bytes long, beyond the 128-byte buffer; the write is still
passed the full 140 while the formatter stored only 127 characters. -/
theorem C9_witness :
    (_STREAM_PART 3 bigFrame.sec bigFrame.usec).length = 140
    ∧ (∃ plen,
        plen = (if bigFrame.format = PixFormat.jpeg then bigFrame.buf.length
                else (inpBig.encoded.getD []).length)
        ∧ Event.sendChunk (Chunk.partHeader
              (String.mk ((_STREAM_PART plen bigFrame.sec
                bigFrame.usec).data.take 127))
              (_STREAM_PART plen bigFrame.sec bigFrame.usec).length)
            inpBig.headerRes
            ∈ (runIter initState inpBig).1
        ∧ (127 < (_STREAM_PART plen bigFrame.sec bigFrame.usec).length →
            (String.mk ((_STREAM_PART plen bigFrame.sec
                bigFrame.usec).data.take 127)).length = 127
            ∧ (String.mk ((_STREAM_PART plen bigFrame.sec
                  bigFrame.usec).data.take 127)).length
                < (_STREAM_PART plen bigFrame.sec bigFrame.usec).length)) :=
  ⟨by decide,
   C9_header_length_unclamped initState inpBig bigFrame rfl rfl rfl
     (by decide) rfl⟩
